import Mathlib

/-!
Shallow embedding of the nslcd PAM core of nss-pam-ldapd
(src/nslcd/common.c and src/nslcd/pam.c).

Conventions of the embedding:
* C strings are Lean `String`s (no interior NUL bytes); `name[0]=='\0'` is `name = ""`.
* Character comparisons in the C code are byte comparisons, so character classes are
  stated on `Char.toNat` with the ASCII code points of the literals used in the source.
* LDAP result codes and wire protocol tags are numeric constants; their exact values
  come from the external headers (ldap.h, nslcd.h) and only their distinctness matters.
* External collaborators (myldap sessions, expr_parse, inet_pton, uid2entry,
  lookup_dn2uid) are modelled as oracle parameters describing the outcome of the one
  call the code makes; the code under src/ is translated faithfully around them.
* The wire stream written by a handler is a `List WireItem`; the READ/WRITE macros'
  I/O-error early exits are outside the model (the claims concern the values written).
-/

/-! LDAP result codes (values from ldap.h). -/

def LDAP_SUCCESS : Nat := 0
def LDAP_INVALID_SYNTAX : Nat := 21
def LDAP_NO_SUCH_OBJECT : Nat := 32
def LDAP_INVALID_CREDENTIALS : Nat := 49
def LDAP_UNAVAILABLE : Nat := 52
def LDAP_LOCAL_ERROR : Nat := 82
def LDAP_NO_RESULTS_RETURNED : Nat := 94

/-! nslcd wire protocol constants (values from nslcd.h). -/

def NSLCD_VERSION : Int := 2
def NSLCD_ACTION_PAM_AUTHC : Int := 0x000d0001
def NSLCD_ACTION_PAM_AUTHZ : Int := 0x000d0002
def NSLCD_RESULT_BEGIN : Int := 1
def NSLCD_RESULT_END : Int := 2
def NSLCD_PAM_SUCCESS : Int := 0
def NSLCD_PAM_PERM_DENIED : Int := 6
def NSLCD_PAM_AUTH_ERR : Int := 7
def NSLCD_PAM_AUTHINFO_UNAVAIL : Int := 9

/-! Name validator, from isvalidname in src/nslcd/common.c lines 160-189. -/

/-- Characters supported everywhere in the name:
`name[i]>='@' && name[i]<='Z'` (64..90), `'a'..'z'` (97..122), `'0'..'9'` (48..57),
`'.'` (46), `'_'` (95), `'$'` (36). -/
def coreChar (c : Char) : Bool :=
  (64 ≤ c.toNat && c.toNat ≤ 90) ||
  (97 ≤ c.toNat && c.toNat ≤ 122) ||
  (48 ≤ c.toNat && c.toNat ≤ 57) ||
  c.toNat == 46 || c.toNat == 95 || c.toNat == 36

/-- Characters that may be anywhere except as first character: `'-'` (45), `'~'` (126). -/
def midChar (c : Char) : Bool :=
  c.toNat == 45 || c.toNat == 126

/-- Characters that may not be the first or last character: backslash (92), space (32). -/
def innerChar (c : Char) : Bool :=
  c.toNat == 92 || c.toNat == 32

/-- The union of all characters the validator can accept somewhere. -/
def nameChar (c : Char) : Bool :=
  coreChar c || midChar c || innerChar c

/-- The conditionally compiled `i >= LOGIN_NAME_MAX` rejection; `lmax = none` models a
build without LOGIN_NAME_MAX. -/
def lmaxExceeded : Option Nat → Nat → Bool
  | some m, i => decide (m ≤ i)
  | none, _ => false

/-- The loop of isvalidname: index `i`, remaining characters; `rest = []` plays the role
of `name[i+1] == '\0'`. -/
def isvalidnameGo (lmax : Option Nat) : Nat → List Char → Bool
  | _, [] => true
  | i, c :: rest =>
    if lmaxExceeded lmax i then false
    else if coreChar c then isvalidnameGo lmax (i + 1) rest
    else if decide (0 < i) && midChar c then isvalidnameGo lmax (i + 1) rest
    else if (decide (0 < i) && !rest.isEmpty) && innerChar c then isvalidnameGo lmax (i + 1) rest
    else false

/-- isvalidname from src/nslcd/common.c (the C function returns -1 for valid, 0 for
invalid; modelled as `true`/`false`). The NULL-pointer case does not arise for Lean
strings. -/
def isvalidname (lmax : Option Nat) (name : List Char) : Bool :=
  if name.isEmpty then false else isvalidnameGo lmax 0 name

/-- The character rules of the isvalidname loop with the index abstracted to a single
"not at position 0" flag (used to characterize the loop). -/
def charsOk : Bool → List Char → Bool
  | _, [] => true
  | nf, c :: rest =>
    if coreChar c then charsOk true rest
    else if nf && midChar c then charsOk true rest
    else if (nf && !rest.isEmpty) && innerChar c then charsOk true rest
    else false

/-! Claim-side restatement of the validator (C5), written from the spec sentence:
invalid iff empty, or a character outside the allowed set, or a bad first character,
or a bad last character, or too long. -/

/-- Allowed set named by the claim: `@`, `A`-`Z`, `a`-`z`, `0`-`9`, `.`, `_`, `$`,
`-`, `~`, backslash, space (by ASCII code). -/
def claimAllowed (c : Char) : Bool :=
  c.toNat == 64 ||
  (65 ≤ c.toNat && c.toNat ≤ 90) ||
  (97 ≤ c.toNat && c.toNat ≤ 122) ||
  (48 ≤ c.toNat && c.toNat ≤ 57) ||
  c.toNat == 46 || c.toNat == 95 || c.toNat == 36 ||
  c.toNat == 45 || c.toNat == 126 ||
  c.toNat == 92 || c.toNat == 32

/-- Claim: the string may not start with `-`, `~`, backslash or space. -/
def headBad : List Char → Bool
  | [] => false
  | c :: _ => c.toNat == 45 || c.toNat == 126 || c.toNat == 92 || c.toNat == 32

/-- Claim: the string may not end with backslash or space. -/
def lastBad (l : List Char) : Bool :=
  match l.getLast? with
  | some c => c.toNat == 92 || c.toNat == 32
  | none => false

/-- Claim: the platform length bound, when configured, may not be exceeded. -/
def lmaxClaimExceeded : Option Nat → List Char → Bool
  | some m, l => decide (m < l.length)
  | none, _ => false

/-- The validator as the claim states it (valid unless one of the listed defects). -/
def isvalidname_claim (lmax : Option Nat) (name : List Char) : Bool :=
  !(name.isEmpty ||
    name.any (fun c => !claimAllowed c) ||
    headBad name ||
    lastBad name ||
    lmaxClaimExceeded lmax name)

/-! Address framing, from write_address / read_address in src/nslcd/common.c
lines 192-254. The stream alternates raw int32 fields and raw bytes. -/

inductive StreamElem where
  | i32 (v : Int)
  | byte (b : Nat)
deriving DecidableEq

def AF_INET : Int := 2
def AF_INET6 : Int := 10

/-- write_address: `pton4` / `pton6` are the outcomes of the two `inet_pton` calls,
`some bytes` giving the network-order representation (4 or 16 bytes) on a successful
parse. An address parsing as neither is written as the sentinel family -1, length 0;
the function itself does not fail. -/
def write_address (pton4 pton6 : Option (List Nat)) : List StreamElem :=
  match pton4 with
  | some a => [StreamElem.i32 AF_INET, StreamElem.i32 4] ++ a.map StreamElem.byte
  | none =>
    match pton6 with
    | some a => [StreamElem.i32 AF_INET6, StreamElem.i32 16] ++ a.map StreamElem.byte
    | none => [StreamElem.i32 (-1), StreamElem.i32 0]

/-- Reading `n` raw bytes from the stream (the READ(fp,addr,len) call). -/
def readBytes : Nat → List StreamElem → Option (List Nat × List StreamElem)
  | 0, s => some ([], s)
  | n + 1, StreamElem.byte b :: s =>
    match readBytes n s with
    | some (bs, r) => some (b :: bs, r)
    | none => none
  | _ + 1, _ => none

/-- read_address: fails unless the family is AF_INET or AF_INET6 and the declared
length satisfies `0 < len ∧ len ≤ bufsize` (`(len>*addrlen)||(len<=0)` in the source);
on success returns the family, the address bytes and the remaining stream. -/
def read_address (bufsize : Int) (s : List StreamElem) : Option (Int × List Nat × List StreamElem) :=
  match s with
  | StreamElem.i32 af :: s1 =>
    if af ≠ AF_INET ∧ af ≠ AF_INET6 then none
    else
      match s1 with
      | StreamElem.i32 len :: s2 =>
        if bufsize < len ∨ len ≤ 0 then none
        else
          match readBytes len.toNat s2 with
          | some (bs, r) => some (af, bs, r)
          | none => none
      | _ => none
  | _ => none

/-! User resolver, from validate_user in src/nslcd/pam.c lines 84-142. -/

/-- ASCII lowercase conversion as done bytewise by strcasecmp. -/
def tolowerChar (c : Char) : Char :=
  if 65 ≤ c.toNat ∧ c.toNat ≤ 90 then Char.ofNat (c.toNat + 32) else c

/-- strcasecmp(a,b)==0, modelled as equality after bytewise lowercasing. -/
def strcaseeq (a b : String) : Bool :=
  a.data.map tolowerChar == b.data.map tolowerChar

/-- The slice of a directory entry that validate_user consults: its DN
(myldap_cpy_dn, modelled as the full DN string), the RDN value for the passwd uid
attribute (myldap_get_rdn_value), and the values of the uid attribute
(myldap_get_values; a NULL or empty value list both give no first value). -/
structure LdapEntry where
  dn : String
  rdnValue : Option String
  uidValues : List String
deriving DecidableEq

/-- The "real" username extraction: the RDN value if present, otherwise the first
uid attribute value. -/
def canonicalUid (e : LdapEntry) : Option String :=
  match e.rdnValue with
  | some v => some v
  | none => e.uidValues.head?

/-- Result of validate_user: the LDAP result code, the final contents of the userdn
and username buffers, and whether a directory lookup (uid2entry) was performed. -/
structure ValidateResult where
  rc : Nat
  userdn : String
  username : String
  lookedUp : Bool
deriving DecidableEq

/-- validate_user. `lookup`/`lookupRc` are the outcome of the one uid2entry call
(entry or NULL, and its result code). `userdnsz` is the DN buffer size (the copied
DN is assumed to fit, as myldap_cpy_dn is external); `usernamesz` bounds the
canonical username (`strlen(value) >= usernamesz` is rejected). -/
def validate_user (lmax : Option Nat) (lookup : Option LdapEntry) (lookupRc : Nat)
    (userdn : String) (userdnsz : Nat) (username : String) (usernamesz : Nat) :
    ValidateResult :=
  if isvalidname lmax username.data = false then
    ⟨LDAP_NO_SUCH_OBJECT, userdn, username, false⟩
  else if userdn ≠ "" then
    ⟨LDAP_SUCCESS, userdn, username, false⟩
  else
    match lookup with
    | none =>
      ⟨if lookupRc = LDAP_SUCCESS then LDAP_NO_SUCH_OBJECT else lookupRc,
       userdn, username, true⟩
    | some entry =>
      if strcaseeq entry.dn "unknown" = true then
        ⟨LDAP_NO_SUCH_OBJECT, entry.dn, username, true⟩
      else
        match canonicalUid entry with
        | none => ⟨LDAP_INVALID_SYNTAX, entry.dn, username, true⟩
        | some value =>
          if isvalidname lmax value.data = false ∨ usernamesz ≤ value.length then
            ⟨LDAP_INVALID_SYNTAX, entry.dn, username, true⟩
          else
            ⟨LDAP_SUCCESS, entry.dn, value, true⟩

/-! Bind verifier, from try_bind in src/nslcd/pam.c lines 43-80. -/

/-- Outcomes of the external myldap calls made by try_bind: whether
myldap_create_session succeeds, the search handle and result code of myldap_search,
and the entry and result code of myldap_get_entry. -/
structure TryBindOracle where
  createOk : Bool
  search : Option Unit
  searchRc : Nat
  entry : Option Unit
  entryRc : Nat
deriving DecidableEq

/-- Result of try_bind: the returned code, whether a session was created, and whether
myldap_session_close was called on it. -/
structure TryBindResult where
  rc : Nat
  created : Bool
  closed : Bool
deriving DecidableEq

def try_bind (o : TryBindOracle) : TryBindResult :=
  if o.createOk = false then
    ⟨LDAP_UNAVAILABLE, false, false⟩
  else if o.search = none ∨ o.searchRc ≠ LDAP_SUCCESS then
    ⟨if o.searchRc = LDAP_SUCCESS then LDAP_LOCAL_ERROR else o.searchRc, true, true⟩
  else if o.entry = none ∨ o.entryRc ≠ LDAP_SUCCESS then
    ⟨if o.entryRc = LDAP_SUCCESS then LDAP_NO_RESULTS_RETURNED else o.entryRc, true, true⟩
  else
    ⟨o.entryRc, true, true⟩

/-! Authorization evaluator, from try_autzsearch in src/nslcd/pam.c lines 272-309. -/

/-- try_autzsearch. `expand` is the outcome of the external expr_parse template
expansion (none = malformed template), `search`/`searchRc` of myldap_search and
`entry`/`entryRc` of myldap_get_entry. The source returns `rc` unchanged both when
the search handle is NULL and when no entry is returned. -/
def try_autzsearch (expand : Option String) (search : Option Unit) (searchRc : Nat)
    (entry : Option Unit) (entryRc : Nat) : Nat :=
  match expand with
  | none => LDAP_LOCAL_ERROR
  | some _ =>
    match search with
    | none => searchRc
    | some _ =>
      match entry with
      | none => entryRc
      | some _ => LDAP_SUCCESS

/-! Password change executor, from try_pwmod in src/nslcd/pam.c lines 440-470. -/

/-- Configuration slice consulted by the PAM handlers (nslcd_cfg). -/
structure PamConfig where
  rootpwmoddn : Option String
  rootpwmodpw : Option String
  pam_authz_search : Option String
deriving DecidableEq

/-- Result of try_pwmod: returned code, the (dn, old password, new password) argument
triple of the myldap_passwd call when it is reached, and the session trace. -/
structure PwmodResult where
  rc : Nat
  passwdCall : Option (String × Option String × String)
  created : Bool
  closed : Bool
deriving DecidableEq

/-- try_pwmod. `createOk` is the myldap_create_session outcome, `lookupOk`/`lookupRc`
the outcome of lookup_dn2uid (non-NULL return and result code), `passwdRc` the result
of myldap_passwd when invoked. update_lastchange is best-effort and does not affect
the result. -/
def try_pwmod (cfg : PamConfig) (binddn userdn oldpassword newpassword : String)
    (createOk : Bool) (lookupOk : Bool) (lookupRc : Nat) (passwdRc : Nat) : PwmodResult :=
  if createOk = false then
    ⟨LDAP_UNAVAILABLE, none, false, false⟩
  else if lookupOk = true ∧ lookupRc = LDAP_SUCCESS then
    let old : Option String :=
      if cfg.rootpwmoddn = some binddn then none else some oldpassword
    ⟨passwdRc, some (userdn, old, newpassword), true, true⟩
  else
    ⟨lookupRc, none, true, true⟩

/-! Authentication handler, from nslcd_pam_authc in src/nslcd/pam.c lines 145-220. -/

inductive WireItem where
  | int (v : Int)
  | str (s : String)
deriving DecidableEq

/-- The response header written by nslcd_pam_authc. -/
def authcHeader : List WireItem :=
  [WireItem.int NSLCD_VERSION, WireItem.int NSLCD_ACTION_PAM_AUTHC]

/-- The result-code mapping switch of nslcd_pam_authc (lines 205-210). -/
def mapAuthcRc (rc : Nat) : Int :=
  if rc = LDAP_SUCCESS then NSLCD_PAM_SUCCESS
  else if rc = LDAP_INVALID_CREDENTIALS then NSLCD_PAM_AUTH_ERR
  else NSLCD_PAM_AUTH_ERR

/-- Result of nslcd_pam_authc: everything written to the stream, the return value,
the (userdn, password) pair passed to try_bind when the bind is attempted, and
whether validate_user (normal resolution) was invoked. -/
structure AuthcResult where
  stream : List WireItem
  ret : Int
  bindCall : Option (String × String)
  usedValidate : Bool
deriving DecidableEq

/-- The request-fatal abort taken when a configured administrator credential does not
fit its fixed buffer (only the header has been written; returns -1). -/
def authcAbort : AuthcResult :=
  ⟨authcHeader, -1, none, false⟩

/-- The tail of nslcd_pam_authc from the try_bind call on: bind, map the code, write
the single result record and the end marker. `bind` gives try_bind's result code for
the credentials used. -/
def authcFinish (username userdn password : String) (usedV : Bool)
    (bind : String → String → Nat) : AuthcResult :=
  { stream := authcHeader ++
      [WireItem.int NSLCD_RESULT_BEGIN, WireItem.str username, WireItem.str userdn,
       WireItem.int (mapAuthcRc (bind userdn password)), WireItem.int NSLCD_PAM_SUCCESS,
       WireItem.str "", WireItem.int NSLCD_RESULT_END],
    ret := 0, bindCall := some (userdn, password), usedValidate := usedV }

/-- Lines 176-184: the rootpwmodpw substitution for the request's password. Returns
none when the request is aborted because rootpwmodpw does not fit the 64-byte
password buffer, otherwise the effective password. -/
def substAdminPw (cfg : PamConfig) (calleruid : Nat) (password : String) : Option String :=
  match cfg.rootpwmodpw with
  | some p =>
    if password = "" ∧ calleruid = 0 then
      if 64 ≤ p.length then none else some p
    else some password
  | none => some password

/-- The normal-resolution arm of nslcd_pam_authc (lines 186-219). -/
def authcNormal (lmax : Option Nat) (username userdn password : String)
    (lookup : Option LdapEntry) (lookupRc : Nat) (bind : String → String → Nat) :
    AuthcResult :=
  let v := validate_user lmax lookup lookupRc userdn 256 username 256
  if v.rc = LDAP_SUCCESS then
    authcFinish v.username v.userdn password true bind
  else if v.rc = LDAP_NO_SUCH_OBJECT then
    { stream := authcHeader ++ [WireItem.int NSLCD_RESULT_END],
      ret := -1, bindCall := none, usedValidate := true }
  else
    { stream := authcHeader ++
        [WireItem.int NSLCD_RESULT_BEGIN, WireItem.str v.username, WireItem.str "",
         WireItem.int NSLCD_PAM_AUTHINFO_UNAVAIL, WireItem.int NSLCD_PAM_SUCCESS,
         WireItem.str "LDAP server unavaiable", WireItem.int NSLCD_RESULT_END],
      ret := -1, bindCall := none, usedValidate := true }

/-- nslcd_pam_authc, after the four request fields have been read. The buffers are
username[256], userdn[256], servicename[64], password[64]; the administrative branch
is taken exactly when the username is empty and ldc_rootpwmoddn is configured. -/
def nslcd_pam_authc (lmax : Option Nat) (cfg : PamConfig) (calleruid : Nat)
    (username userdn servicename password : String)
    (lookup : Option LdapEntry) (lookupRc : Nat) (bind : String → String → Nat) :
    AuthcResult :=
  match cfg.rootpwmoddn, decide (username = "") with
  | some d, true =>
    if 256 ≤ d.length then authcAbort
    else
      match substAdminPw cfg calleruid password with
      | none => authcAbort
      | some pw => authcFinish username d pw false bind
  | some _, false => authcNormal lmax username userdn password lookup lookupRc bind
  | none, _ => authcNormal lmax username userdn password lookup lookupRc bind

/-! Authorization handler, from nslcd_pam_authz in src/nslcd/pam.c lines 312-377. -/

structure AuthzResult where
  stream : List WireItem
  ret : Int
deriving DecidableEq

def authzHeader : List WireItem :=
  [WireItem.int NSLCD_VERSION, WireItem.int NSLCD_ACTION_PAM_AUTHZ]

/-- nslcd_pam_authz, after the six request fields have been read. The oracle
parameters feed validate_user (lookup/lookupRc) and try_autzsearch (expand, search,
searchRc, entry, entryRc). Note that in the source the denial branch falls through to
the success record that follows it. -/
def nslcd_pam_authz (lmax : Option Nat) (cfg : PamConfig)
    (username userdn servicename ruser rhost tty : String)
    (lookup : Option LdapEntry) (lookupRc : Nat)
    (expand : Option String) (search : Option Unit) (searchRc : Nat)
    (entry : Option Unit) (entryRc : Nat) : AuthzResult :=
  let v := validate_user lmax lookup lookupRc userdn 256 username 256
  if v.rc ≠ LDAP_SUCCESS then
    ⟨authzHeader ++ [WireItem.int NSLCD_RESULT_END], -1⟩
  else
    let denial : List WireItem :=
      match cfg.pam_authz_search with
      | some _ =>
        if try_autzsearch expand search searchRc entry entryRc ≠ LDAP_SUCCESS then
          [WireItem.int NSLCD_RESULT_BEGIN, WireItem.str v.username,
           WireItem.str v.userdn, WireItem.int NSLCD_PAM_PERM_DENIED,
           WireItem.str "LDAP authorisation check failed", WireItem.int NSLCD_RESULT_END]
        else []
      | none => []
    ⟨authzHeader ++ denial ++
      [WireItem.int NSLCD_RESULT_BEGIN, WireItem.str v.username, WireItem.str v.userdn,
       WireItem.int NSLCD_PAM_SUCCESS, WireItem.str "", WireItem.int NSLCD_RESULT_END], 0⟩

/-- The response body (everything after the version and action tags). -/
def respBody (s : List WireItem) : List WireItem :=
  s.drop 2

/-- Number of result records opened in a piece of stream. -/
def countBegin (s : List WireItem) : Nat :=
  (s.filter (fun x => x == WireItem.int NSLCD_RESULT_BEGIN)).length

/-- Number of end markers in a piece of stream. -/
def countEnd (s : List WireItem) : Nat :=
  (s.filter (fun x => x == WireItem.int NSLCD_RESULT_END)).length

/-! Helper lemmas. -/

theorem respBody_authcHeader (l : List WireItem) : respBody (authcHeader ++ l) = l := rfl

theorem respBody_authzHeader (l : List WireItem) : respBody (authzHeader ++ l) = l := rfl

theorem readBytes_map_append (bs : List Nat) (r : List StreamElem) :
    readBytes bs.length (bs.map StreamElem.byte ++ r) = some (bs, r) := by
  induction bs with
  | nil => rfl
  | cons b t ih => simp [readBytes, ih]

/-! Claim C2. -/

/-- C2 (code bug evidence): try_autzsearch returns LDAP_LOCAL_ERROR on a malformed
template expansion, but at the failing input — the expansion succeeds, myldap_search
returns a handle with rc = LDAP_SUCCESS, and myldap_get_entry returns no entry with
rc = LDAP_SUCCESS (a successful search matching zero entries) — it returns
LDAP_SUCCESS, granting authorization with zero matching entries. -/
theorem C2_try_autzsearch_zero_match_grants :
    (∀ (search : Option Unit) (searchRc : Nat) (entry : Option Unit) (entryRc : Nat),
       try_autzsearch none search searchRc entry entryRc = LDAP_LOCAL_ERROR) ∧
    try_autzsearch (some "(uid=alice)") (some ()) LDAP_SUCCESS none LDAP_SUCCESS
      = LDAP_SUCCESS := by
  refine ⟨fun search searchRc entry entryRc => rfl, rfl⟩

/-! Claim C4. -/

/-- C4: whenever try_pwmod reaches the myldap_passwd call, the old-secret argument is
absent exactly when the bind identity equals the configured administrator DN, and for
any other bind identity the supplied old secret is forwarded unchanged; the target DN
and new secret are forwarded unchanged. -/
theorem C4_try_pwmod_admin_no_old_secret
    (cfg : PamConfig) (binddn userdn oldpassword newpassword : String)
    (createOk lookupOk : Bool) (lookupRc passwdRc : Nat)
    (d : String) (old : Option String) (n : String)
    (h : (try_pwmod cfg binddn userdn oldpassword newpassword
            createOk lookupOk lookupRc passwdRc).passwdCall = some (d, old, n)) :
    d = userdn ∧ n = newpassword ∧
    (old = none ↔ cfg.rootpwmoddn = some binddn) ∧
    (cfg.rootpwmoddn ≠ some binddn → old = some oldpassword) := by
  unfold try_pwmod at h
  by_cases h1 : createOk = false
  · simp [h1] at h
  · rw [if_neg h1] at h
    by_cases h2 : lookupOk = true ∧ lookupRc = LDAP_SUCCESS
    · rw [if_pos h2] at h
      simp only [Option.some.injEq, Prod.mk.injEq] at h
      obtain ⟨hd, hold, hn⟩ := h
      subst hd; subst hn
      by_cases h3 : cfg.rootpwmoddn = some binddn
      · rw [if_pos h3] at hold
        exact ⟨rfl, rfl, by simp [← hold, h3], fun hc => absurd h3 hc⟩
      · rw [if_neg h3] at hold
        refine ⟨rfl, rfl, ?_, fun _ => hold.symm⟩
        constructor
        · intro hco; rw [← hold] at hco; exact absurd hco (by simp)
        · intro hco; exact absurd hco h3
    · rw [if_neg h2] at h
      simp at h

/-- C4 witness: a concrete administrative password change in which the old secret is
dropped from the modify call. -/
theorem C4_try_pwmod_admin_no_old_secret_witness :
    "uid=bob,dc=example" = "uid=bob,dc=example" ∧ "newpw" = "newpw" ∧
    ((none : Option String) = none ↔
      (PamConfig.mk (some "cn=admin,dc=example") none none).rootpwmoddn
        = some "cn=admin,dc=example") ∧
    ((PamConfig.mk (some "cn=admin,dc=example") none none).rootpwmoddn
        ≠ some "cn=admin,dc=example" → (none : Option String) = some "oldpw") :=
  C4_try_pwmod_admin_no_old_secret
    (PamConfig.mk (some "cn=admin,dc=example") none none)
    "cn=admin,dc=example" "uid=bob,dc=example" "oldpw" "newpw"
    true true LDAP_SUCCESS LDAP_SUCCESS
    "uid=bob,dc=example" none "newpw" (by rfl)

/-! Claim C7. -/

/-- C7 counterexample: with an absent DN and a matched entry whose DN is the
"unknown" sentinel, validate_user fails with LDAP_NO_SUCH_OBJECT (the NotFound code),
not LDAP_INVALID_SYNTAX as the claim states. -/
theorem C7_unknown_dn_gives_notfound :
    (validate_user none (some (LdapEntry.mk "unknown" (some "bob") ["bob"]))
       LDAP_SUCCESS "" 256 "bob" 256).rc = LDAP_NO_SUCH_OBJECT ∧
    LDAP_NO_SUCH_OBJECT ≠ LDAP_INVALID_SYNTAX := by
  exact ⟨by rfl, by decide⟩

/-- C7 amended: with an absent DN (and a requested username passing the validator),
validate_user fails with LDAP_NO_SUCH_OBJECT when no directory entry matches or when
the matched entry's DN equals the "unknown" sentinel case-insensitively, and fails
with LDAP_INVALID_SYNTAX when the matched entry's canonical username is absent, fails
the name validator, or does not fit the caller's username buffer. -/
theorem C7_validate_user_failure_modes
    (lmax : Option Nat) (lookup : Option LdapEntry) (lookupRc : Nat)
    (userdnsz : Nat) (username : String) (usernamesz : Nat)
    (hval : isvalidname lmax username.data = true) :
    (lookup = none → lookupRc = LDAP_SUCCESS →
      (validate_user lmax lookup lookupRc "" userdnsz username usernamesz).rc
        = LDAP_NO_SUCH_OBJECT) ∧
    (∀ e, lookup = some e → strcaseeq e.dn "unknown" = true →
      (validate_user lmax lookup lookupRc "" userdnsz username usernamesz).rc
        = LDAP_NO_SUCH_OBJECT) ∧
    (∀ e, lookup = some e → strcaseeq e.dn "unknown" = false → canonicalUid e = none →
      (validate_user lmax lookup lookupRc "" userdnsz username usernamesz).rc
        = LDAP_INVALID_SYNTAX) ∧
    (∀ e v, lookup = some e → strcaseeq e.dn "unknown" = false → canonicalUid e = some v →
      (isvalidname lmax v.data = false ∨ usernamesz ≤ v.length) →
      (validate_user lmax lookup lookupRc "" userdnsz username usernamesz).rc
        = LDAP_INVALID_SYNTAX) := by
  refine ⟨?_, ?_, ?_, ?_⟩
  · intro hl hrc
    subst hl
    simp [validate_user, hval, hrc]
  · intro e hl hdn
    subst hl
    simp [validate_user, hval, hdn]
  · intro e hl hdn hcan
    subst hl
    simp [validate_user, hval, hdn, hcan]
  · intro e v hl hdn hcan hbad
    subst hl
    rcases hbad with hb | hb <;> simp [validate_user, hval, hdn, hcan, hb]

/-- C7 witness: a matched entry with no RDN value and no uid attribute values has no
canonical username, and validate_user reports LDAP_INVALID_SYNTAX. -/
theorem C7_validate_user_failure_modes_witness :
    (validate_user none (some (LdapEntry.mk "uid=bob,dc=example" none []))
       LDAP_SUCCESS "" 256 "bob" 256).rc = LDAP_INVALID_SYNTAX :=
  (C7_validate_user_failure_modes none
      (some (LdapEntry.mk "uid=bob,dc=example" none [])) LDAP_SUCCESS 256 "bob" 256
      (by rfl)).2.2.1
    (LdapEntry.mk "uid=bob,dc=example" none []) rfl (by rfl) rfl

/-! Claim C8. -/

/-- C8 counterexample: when the search succeeds but myldap_get_entry returns no entry
with rc = LDAP_SUCCESS, try_bind returns LDAP_NO_RESULTS_RETURNED, not
LDAP_LOCAL_ERROR as the claim states for the no-entry case. -/
theorem C8_no_entry_default_not_local_error :
    (try_bind (TryBindOracle.mk true (some ()) LDAP_SUCCESS none LDAP_SUCCESS)).rc
      = LDAP_NO_RESULTS_RETURNED ∧
    LDAP_NO_RESULTS_RETURNED ≠ LDAP_LOCAL_ERROR := by
  exact ⟨by rfl, by decide⟩

/-- C8 amended: try_bind reports any search or entry-retrieval failure as the
underlying directory error code; when the directory reports success but returns no
search handle it defaults to LDAP_LOCAL_ERROR, and when it returns no entry it
defaults to LDAP_NO_RESULTS_RETURNED; and whenever a session was created it is closed
before try_bind returns, on every outcome path. -/
theorem C8_try_bind_defaults_and_close (o : TryBindOracle) :
    ((try_bind o).created = true → (try_bind o).closed = true) ∧
    (o.createOk = false → (try_bind o).rc = LDAP_UNAVAILABLE ∧ (try_bind o).created = false) ∧
    (o.createOk = true → o.search = none → o.searchRc = LDAP_SUCCESS →
       (try_bind o).rc = LDAP_LOCAL_ERROR) ∧
    (o.createOk = true → o.searchRc ≠ LDAP_SUCCESS → (try_bind o).rc = o.searchRc) ∧
    (o.createOk = true → o.search ≠ none → o.searchRc = LDAP_SUCCESS → o.entry = none →
       o.entryRc = LDAP_SUCCESS → (try_bind o).rc = LDAP_NO_RESULTS_RETURNED) ∧
    (o.createOk = true → o.search ≠ none → o.searchRc = LDAP_SUCCESS →
       o.entryRc ≠ LDAP_SUCCESS → (try_bind o).rc = o.entryRc) ∧
    (o.createOk = true → o.search ≠ none → o.searchRc = LDAP_SUCCESS → o.entry ≠ none →
       o.entryRc = LDAP_SUCCESS → (try_bind o).rc = LDAP_SUCCESS) := by
  obtain ⟨createOk, search, searchRc, entry, entryRc⟩ := o
  cases createOk <;> cases search <;> cases entry <;>
    by_cases hs : searchRc = LDAP_SUCCESS <;> by_cases he : entryRc = LDAP_SUCCESS <;>
    simp_all [try_bind]

/-- C8 witness: concrete runs showing the session is closed and the no-entry default
code. -/
theorem C8_try_bind_defaults_and_close_witness :
    (try_bind (TryBindOracle.mk true (some ()) LDAP_SUCCESS none LDAP_SUCCESS)).closed = true ∧
    (try_bind (TryBindOracle.mk true (some ()) LDAP_SUCCESS none LDAP_SUCCESS)).rc
      = LDAP_NO_RESULTS_RETURNED :=
  ⟨(C8_try_bind_defaults_and_close
      (TryBindOracle.mk true (some ()) LDAP_SUCCESS none LDAP_SUCCESS)).1 (by rfl),
   (C8_try_bind_defaults_and_close
      (TryBindOracle.mk true (some ()) LDAP_SUCCESS none LDAP_SUCCESS)).2.2.2.2.1
     rfl (by decide) rfl rfl rfl⟩

/-! Claim C9. -/

/-- C9: encoding a parseable IPv4 address then decoding yields family AF_INET and the
4 network-order bytes produced by the parse; encoding an address that parses as
neither IPv4 nor IPv6 emits the sentinel pair (-1, 0) without failing; decoding that
sentinel is a decode error; and read_address fails on any family other than
AF_INET/AF_INET6 and on any declared length that is not positive and at most the
caller's buffer size. -/
theorem C9_address_roundtrip :
    (∀ (a : List Nat) (p6 : Option (List Nat)) (bufsize : Int),
       a.length = 4 → 4 ≤ bufsize →
       read_address bufsize (write_address (some a) p6) = some (AF_INET, a, [])) ∧
    write_address none none = [StreamElem.i32 (-1), StreamElem.i32 0] ∧
    (∀ bufsize : Int, read_address bufsize (write_address none none) = none) ∧
    (∀ (af : Int) (rest : List StreamElem) (bufsize : Int),
       af ≠ AF_INET → af ≠ AF_INET6 →
       read_address bufsize (StreamElem.i32 af :: rest) = none) ∧
    (∀ (af len : Int) (rest : List StreamElem) (bufsize : Int),
       ¬(0 < len ∧ len ≤ bufsize) →
       read_address bufsize (StreamElem.i32 af :: StreamElem.i32 len :: rest) = none) := by
  refine ⟨?_, rfl, ?_, ?_, ?_⟩
  · intro a p6 bufsize ha hb
    have hr : readBytes (4 : Int).toNat (List.map StreamElem.byte a) = some (a, []) := by
      have h0 := readBytes_map_append a []
      rw [List.append_nil, ha] at h0
      exact h0
    simp only [write_address, List.cons_append, List.nil_append, read_address]
    rw [if_neg (by decide), if_neg (by omega), hr]
  · intro bufsize
    simp [write_address, read_address, AF_INET, AF_INET6]
  · intro af rest bufsize h2 h10
    simp only [read_address]
    rw [if_pos ⟨h2, h10⟩]
  · intro af len rest bufsize h
    simp only [read_address]
    by_cases haf : af ≠ AF_INET ∧ af ≠ AF_INET6
    · rw [if_pos haf]
    · rw [if_neg haf, if_pos (by omega)]

/-- C9 witness: the concrete round trip for 192.0.2.1 (network order bytes
192,0,2,1). -/
theorem C9_address_roundtrip_witness :
    ([192, 0, 2, 1] : List Nat).length = 4 ∧ (4 : Int) ≤ 4 ∧
    read_address 4 (write_address (some [192, 0, 2, 1]) none)
      = some (AF_INET, [192, 0, 2, 1], []) :=
  ⟨by decide, by decide,
   C9_address_roundtrip.1 [192, 0, 2, 1] none 4 (by decide) (by decide)⟩

/-! Claim C10. -/

/-- C10: when the supplied DN is non-empty, validate_user performs no directory
lookup, leaves both the DN and username buffers unchanged, and succeeds exactly when
the supplied username passes the name validator, failing with LDAP_NO_SUCH_OBJECT
otherwise. -/
theorem C10_validate_user_nonempty_dn
    (lmax : Option Nat) (lookup : Option LdapEntry) (lookupRc : Nat)
    (userdn : String) (userdnsz : Nat) (username : String) (usernamesz : Nat)
    (h : userdn ≠ "") :
    (validate_user lmax lookup lookupRc userdn userdnsz username usernamesz).lookedUp = false ∧
    (validate_user lmax lookup lookupRc userdn userdnsz username usernamesz).userdn = userdn ∧
    (validate_user lmax lookup lookupRc userdn userdnsz username usernamesz).username = username ∧
    ((validate_user lmax lookup lookupRc userdn userdnsz username usernamesz).rc = LDAP_SUCCESS
       ↔ isvalidname lmax username.data = true) ∧
    (isvalidname lmax username.data = false →
      (validate_user lmax lookup lookupRc userdn userdnsz username usernamesz).rc
        = LDAP_NO_SUCH_OBJECT) := by
  by_cases hv : isvalidname lmax username.data = false
  · simp [validate_user, hv, LDAP_NO_SUCH_OBJECT, LDAP_SUCCESS]
  · simp [validate_user, hv, h, LDAP_SUCCESS]

/-- C10 witness: a request with a pre-resolved DN and a valid username succeeds with
both buffers untouched and no lookup. -/
theorem C10_validate_user_nonempty_dn_witness :
    (validate_user none none LDAP_SUCCESS "uid=alice,dc=example" 256 "alice" 256).lookedUp
      = false ∧
    (validate_user none none LDAP_SUCCESS "uid=alice,dc=example" 256 "alice" 256).userdn
      = "uid=alice,dc=example" ∧
    (validate_user none none LDAP_SUCCESS "uid=alice,dc=example" 256 "alice" 256).username
      = "alice" ∧
    ((validate_user none none LDAP_SUCCESS "uid=alice,dc=example" 256 "alice" 256).rc
       = LDAP_SUCCESS ↔ isvalidname none "alice".data = true) ∧
    (isvalidname none "alice".data = false →
      (validate_user none none LDAP_SUCCESS "uid=alice,dc=example" 256 "alice" 256).rc
        = LDAP_NO_SUCH_OBJECT) :=
  C10_validate_user_nonempty_dn none none LDAP_SUCCESS "uid=alice,dc=example" 256
    "alice" 256 (by decide)

/-! Claim C3. -/

/-- C3 (code bug evidence): evaluating nslcd_pam_authz at a request where identity
resolution succeeds and the authorization search denies: the response body contains
the permission-denied record and its end marker, and then a further (success) result
record and a second end marker — the source falls through after writing the denial
instead of terminating the response there. -/
theorem C3_authz_denial_double_record :
    respBody ((nslcd_pam_authz none (PamConfig.mk none none (some "(pamfilter)"))
        "alice" "" "sshd" "" "" ""
        (some (LdapEntry.mk "uid=alice,dc=example" (some "alice") ["alice"]))
        LDAP_SUCCESS none none LDAP_SUCCESS none LDAP_SUCCESS).stream) =
      [WireItem.int NSLCD_RESULT_BEGIN, WireItem.str "alice",
       WireItem.str "uid=alice,dc=example", WireItem.int NSLCD_PAM_PERM_DENIED,
       WireItem.str "LDAP authorisation check failed", WireItem.int NSLCD_RESULT_END,
       WireItem.int NSLCD_RESULT_BEGIN, WireItem.str "alice",
       WireItem.str "uid=alice,dc=example", WireItem.int NSLCD_PAM_SUCCESS,
       WireItem.str "", WireItem.int NSLCD_RESULT_END] ∧
    countBegin (respBody ((nslcd_pam_authz none (PamConfig.mk none none (some "(pamfilter)"))
        "alice" "" "sshd" "" "" ""
        (some (LdapEntry.mk "uid=alice,dc=example" (some "alice") ["alice"]))
        LDAP_SUCCESS none none LDAP_SUCCESS none LDAP_SUCCESS).stream)) = 2 ∧
    countEnd (respBody ((nslcd_pam_authz none (PamConfig.mk none none (some "(pamfilter)"))
        "alice" "" "sshd" "" "" ""
        (some (LdapEntry.mk "uid=alice,dc=example" (some "alice") ["alice"]))
        LDAP_SUCCESS none none LDAP_SUCCESS none LDAP_SUCCESS).stream)) = 2 := by
  refine ⟨by rfl, by rfl, by rfl⟩

/-! Claim C6. -/

/-- C6: response shapes of the authentication handler on the normal-resolution path:
an unknown user (LDAP_NO_SUCH_OBJECT from resolution) yields zero result records
before the end marker; any other resolution failure yields exactly one record with
NSLCD_PAM_AUTHINFO_UNAVAIL; successful resolution with the bind rejected as
LDAP_INVALID_CREDENTIALS yields exactly one record with NSLCD_PAM_AUTH_ERR. -/
theorem C6_authc_response_shapes
    (lmax : Option Nat) (cfg : PamConfig) (calleruid : Nat)
    (username userdn servicename password : String)
    (lookup : Option LdapEntry) (lookupRc : Nat) (bind : String → String → Nat)
    (hn : ¬(username = "" ∧ cfg.rootpwmoddn.isSome = true)) :
    ((validate_user lmax lookup lookupRc userdn 256 username 256).rc = LDAP_NO_SUCH_OBJECT →
       respBody ((nslcd_pam_authc lmax cfg calleruid username userdn servicename password
           lookup lookupRc bind).stream) = [WireItem.int NSLCD_RESULT_END] ∧
       countBegin (respBody ((nslcd_pam_authc lmax cfg calleruid username userdn servicename
           password lookup lookupRc bind).stream)) = 0) ∧
    ((validate_user lmax lookup lookupRc userdn 256 username 256).rc ≠ LDAP_SUCCESS →
     (validate_user lmax lookup lookupRc userdn 256 username 256).rc ≠ LDAP_NO_SUCH_OBJECT →
       respBody ((nslcd_pam_authc lmax cfg calleruid username userdn servicename password
           lookup lookupRc bind).stream) =
         [WireItem.int NSLCD_RESULT_BEGIN,
          WireItem.str (validate_user lmax lookup lookupRc userdn 256 username 256).username,
          WireItem.str "", WireItem.int NSLCD_PAM_AUTHINFO_UNAVAIL,
          WireItem.int NSLCD_PAM_SUCCESS, WireItem.str "LDAP server unavaiable",
          WireItem.int NSLCD_RESULT_END] ∧
       countBegin (respBody ((nslcd_pam_authc lmax cfg calleruid username userdn servicename
           password lookup lookupRc bind).stream)) = 1) ∧
    ((validate_user lmax lookup lookupRc userdn 256 username 256).rc = LDAP_SUCCESS →
     bind (validate_user lmax lookup lookupRc userdn 256 username 256).userdn password
        = LDAP_INVALID_CREDENTIALS →
       respBody ((nslcd_pam_authc lmax cfg calleruid username userdn servicename password
           lookup lookupRc bind).stream) =
         [WireItem.int NSLCD_RESULT_BEGIN,
          WireItem.str (validate_user lmax lookup lookupRc userdn 256 username 256).username,
          WireItem.str (validate_user lmax lookup lookupRc userdn 256 username 256).userdn,
          WireItem.int NSLCD_PAM_AUTH_ERR, WireItem.int NSLCD_PAM_SUCCESS, WireItem.str "",
          WireItem.int NSLCD_RESULT_END] ∧
       countBegin (respBody ((nslcd_pam_authc lmax cfg calleruid username userdn servicename
           password lookup lookupRc bind).stream)) = 1) := by
  have hnorm : nslcd_pam_authc lmax cfg calleruid username userdn servicename password
      lookup lookupRc bind = authcNormal lmax username userdn password lookup lookupRc bind := by
    unfold nslcd_pam_authc
    rcases hc : cfg.rootpwmoddn with _ | d
    · rfl
    · by_cases hu : username = ""
      · exact absurd ⟨hu, by rw [hc]; rfl⟩ hn
      · rw [decide_eq_false hu]
  rw [hnorm]
  unfold authcNormal
  refine ⟨?_, ?_, ?_⟩
  · intro h32
    rw [if_neg (by rw [h32]; decide), if_pos h32]
    exact ⟨rfl, rfl⟩
  · intro hns h32
    rw [if_neg hns, if_neg h32]
    exact ⟨rfl, rfl⟩
  · intro hok hcred
    rw [if_pos hok]
    unfold authcFinish
    rw [hcred]
    exact ⟨rfl, rfl⟩

/-- C6 witness: a known user with a wrong secret gets exactly one auth-error result
record. -/
theorem C6_authc_response_shapes_witness :
    respBody ((nslcd_pam_authc none (PamConfig.mk none none none) 1000
        "bob" "" "sshd" "pw"
        (some (LdapEntry.mk "uid=bob,dc=example" (some "bob") ["bob"])) LDAP_SUCCESS
        (fun _ _ => LDAP_INVALID_CREDENTIALS)).stream) =
      [WireItem.int NSLCD_RESULT_BEGIN,
       WireItem.str (validate_user none
         (some (LdapEntry.mk "uid=bob,dc=example" (some "bob") ["bob"])) LDAP_SUCCESS
         "" 256 "bob" 256).username,
       WireItem.str (validate_user none
         (some (LdapEntry.mk "uid=bob,dc=example" (some "bob") ["bob"])) LDAP_SUCCESS
         "" 256 "bob" 256).userdn,
       WireItem.int NSLCD_PAM_AUTH_ERR, WireItem.int NSLCD_PAM_SUCCESS, WireItem.str "",
       WireItem.int NSLCD_RESULT_END] ∧
    countBegin (respBody ((nslcd_pam_authc none (PamConfig.mk none none none) 1000
        "bob" "" "sshd" "pw"
        (some (LdapEntry.mk "uid=bob,dc=example" (some "bob") ["bob"])) LDAP_SUCCESS
        (fun _ _ => LDAP_INVALID_CREDENTIALS)).stream)) = 1 :=
  (C6_authc_response_shapes none (PamConfig.mk none none none) 1000 "bob" "" "sshd" "pw"
      (some (LdapEntry.mk "uid=bob,dc=example" (some "bob") ["bob"])) LDAP_SUCCESS
      (fun _ _ => LDAP_INVALID_CREDENTIALS) (by decide)).2.2 (by rfl) (by rfl)

/-! Claim C1. -/

/-- C1: the administrative bypass of nslcd_pam_authc (normal resolution skipped) is
taken exactly when the request's username is empty and an administrator DN is
configured; when taken and the configured DN fits its buffer, the bind DN is the
administrator DN, and the configured administrator secret replaces the request's
secret exactly when the request's secret is empty, the caller's uid is 0, and an
administrator secret (fitting its buffer) is configured — otherwise the request's
own secret is used; when the bypass is not taken the handler performs normal
resolution and any bind uses the resolved DN with the request's secret. -/
theorem C1_authc_admin_bypass
    (lmax : Option Nat) (cfg : PamConfig) (calleruid : Nat)
    (username userdn servicename password : String)
    (lookup : Option LdapEntry) (lookupRc : Nat) (bind : String → String → Nat) :
    ((nslcd_pam_authc lmax cfg calleruid username userdn servicename password lookup
        lookupRc bind).usedValidate = false
      ↔ (username = "" ∧ cfg.rootpwmoddn.isSome = true)) ∧
    (∀ d, username = "" → cfg.rootpwmoddn = some d → d.length < 256 →
      (∀ p, cfg.rootpwmodpw = some p → p.length < 64 → password = "" → calleruid = 0 →
        (nslcd_pam_authc lmax cfg calleruid username userdn servicename password lookup
            lookupRc bind).bindCall = some (d, p)) ∧
      (¬(password = "" ∧ calleruid = 0 ∧ cfg.rootpwmodpw.isSome = true) →
        (nslcd_pam_authc lmax cfg calleruid username userdn servicename password lookup
            lookupRc bind).bindCall = some (d, password))) ∧
    (¬(username = "" ∧ cfg.rootpwmoddn.isSome = true) →
      ((validate_user lmax lookup lookupRc userdn 256 username 256).rc = LDAP_SUCCESS →
        (nslcd_pam_authc lmax cfg calleruid username userdn servicename password lookup
            lookupRc bind).bindCall
          = some ((validate_user lmax lookup lookupRc userdn 256 username 256).userdn,
                  password)) ∧
      ((validate_user lmax lookup lookupRc userdn 256 username 256).rc ≠ LDAP_SUCCESS →
        (nslcd_pam_authc lmax cfg calleruid username userdn servicename password lookup
            lookupRc bind).bindCall = none)) := by
  rcases hc : cfg.rootpwmoddn with _ | d0
  · have hnorm : nslcd_pam_authc lmax cfg calleruid username userdn servicename password
        lookup lookupRc bind = authcNormal lmax username userdn password lookup lookupRc bind := by
      unfold nslcd_pam_authc
      rw [hc]
    refine ⟨?_, ?_, ?_⟩
    · rw [hnorm]
      unfold authcNormal
      constructor
      · intro hfalse
        by_cases hok : (validate_user lmax lookup lookupRc userdn 256 username 256).rc
            = LDAP_SUCCESS
        · rw [if_pos hok] at hfalse; cases hfalse
        · rw [if_neg hok] at hfalse
          by_cases h32 : (validate_user lmax lookup lookupRc userdn 256 username 256).rc
              = LDAP_NO_SUCH_OBJECT
          · rw [if_pos h32] at hfalse; cases hfalse
          · rw [if_neg h32] at hfalse; cases hfalse
      · intro habs
        exact absurd habs.2 (by decide)
    · intro d hu hd
      simp at hd
    · intro hnb
      rw [hnorm]
      unfold authcNormal
      constructor
      · intro hok
        rw [if_pos hok]; rfl
      · intro hbad
        rw [if_neg hbad]
        by_cases h32 : (validate_user lmax lookup lookupRc userdn 256 username 256).rc
            = LDAP_NO_SUCH_OBJECT
        · rw [if_pos h32]
        · rw [if_neg h32]
  · by_cases hu : username = ""
    · have hadm : nslcd_pam_authc lmax cfg calleruid username userdn servicename password
          lookup lookupRc bind =
          (if 256 ≤ d0.length then authcAbort
           else
             match substAdminPw cfg calleruid password with
             | none => authcAbort
             | some pw => authcFinish username d0 pw false bind) := by
        unfold nslcd_pam_authc
        rw [hc, decide_eq_true hu]
      refine ⟨?_, ?_, ?_⟩
      · rw [hadm]
        constructor
        · intro _
          exact ⟨hu, rfl⟩
        · intro _
          by_cases hlen : 256 ≤ d0.length
          · rw [if_pos hlen]; rfl
          · rw [if_neg hlen]
            rcases hsub : substAdminPw cfg calleruid password with _ | pw
            · rfl
            · rfl
      · intro d hu2 hd hfit
        injection hd with hd
        subst hd
        rw [hadm, if_neg (by omega)]
        constructor
        · intro p hp hplen hpw huid
          have hsub : substAdminPw cfg calleruid password = some p := by
            unfold substAdminPw
            rw [hp]
            show (if password = "" ∧ calleruid = 0 then
                    if 64 ≤ p.length then none else some p
                  else some password) = some p
            rw [if_pos ⟨hpw, huid⟩, if_neg (by omega)]
          rw [hsub]
          rfl
        · intro hnsub
          have hsub : substAdminPw cfg calleruid password = some password := by
            unfold substAdminPw
            rcases hp : cfg.rootpwmodpw with _ | p
            · rfl
            · show (if password = "" ∧ calleruid = 0 then
                      if 64 ≤ p.length then none else some p
                    else some password) = some password
              rw [if_neg (fun hcon => hnsub ⟨hcon.1, hcon.2, by rw [hp]; rfl⟩)]
          rw [hsub]
          rfl
      · intro hnb
        exact absurd ⟨hu, rfl⟩ hnb
    · have hnorm : nslcd_pam_authc lmax cfg calleruid username userdn servicename password
          lookup lookupRc bind
          = authcNormal lmax username userdn password lookup lookupRc bind := by
        unfold nslcd_pam_authc
        rw [hc, decide_eq_false hu]
      refine ⟨?_, ?_, ?_⟩
      · rw [hnorm]
        unfold authcNormal
        constructor
        · intro hfalse
          by_cases hok : (validate_user lmax lookup lookupRc userdn 256 username 256).rc
              = LDAP_SUCCESS
          · rw [if_pos hok] at hfalse; cases hfalse
          · rw [if_neg hok] at hfalse
            by_cases h32 : (validate_user lmax lookup lookupRc userdn 256 username 256).rc
                = LDAP_NO_SUCH_OBJECT
            · rw [if_pos h32] at hfalse; cases hfalse
            · rw [if_neg h32] at hfalse; cases hfalse
        · intro habs
          exact absurd habs.1 hu
      · intro d hu2 hd hfit
        exact absurd hu2 hu
      · intro hnb
        rw [hnorm]
        unfold authcNormal
        constructor
        · intro hok
          rw [if_pos hok]; rfl
        · intro hbad
          rw [if_neg hbad]
          by_cases h32 : (validate_user lmax lookup lookupRc userdn 256 username 256).rc
              = LDAP_NO_SUCH_OBJECT
          · rw [if_pos h32]
          · rw [if_neg h32]

/-- C1 witness: an empty username with a configured administrator DN, an empty
secret, a root caller and a configured administrator secret binds as the
administrator DN with the configured secret. -/
theorem C1_authc_admin_bypass_witness :
    (nslcd_pam_authc none
        (PamConfig.mk (some "cn=admin,dc=example") (some "adminsecret") none) 0
        "" "" "sshd" "" none LDAP_SUCCESS (fun _ _ => LDAP_SUCCESS)).bindCall
      = some ("cn=admin,dc=example", "adminsecret") :=
  ((C1_authc_admin_bypass none
      (PamConfig.mk (some "cn=admin,dc=example") (some "adminsecret") none) 0
      "" "" "sshd" "" none LDAP_SUCCESS (fun _ _ => LDAP_SUCCESS)).2.1
    "cn=admin,dc=example" rfl rfl (by decide)).1 "adminsecret" rfl (by decide) rfl rfl

/-! Claim C5: helper lemmas. -/

theorem bool_eq_of_iff {a b : Bool} (h : a = true ↔ b = true) : a = b := by
  cases a <;> cases b <;> simp_all

theorem nameChar_iff_claimAllowed (c : Char) :
    nameChar c = true ↔ claimAllowed c = true := by
  simp only [nameChar, coreChar, midChar, innerChar, claimAllowed, Bool.or_eq_true,
    Bool.and_eq_true, beq_iff_eq, decide_eq_true_eq]
  omega

theorem coreChar_iff_head_ok (c : Char) :
    coreChar c = true ↔ (nameChar c = true ∧
      (c.toNat == 45 || c.toNat == 126 || c.toNat == 92 || c.toNat == 32) = false) := by
  simp only [nameChar, coreChar, midChar, innerChar, Bool.or_eq_true, Bool.and_eq_true,
    Bool.or_eq_false_iff, beq_iff_eq, beq_eq_false_iff_ne, ne_eq, decide_eq_true_eq]
  omega

theorem core_or_mid_iff_last_ok (c : Char) :
    (coreChar c || midChar c) = true ↔ (nameChar c = true ∧ innerChar c = false) := by
  simp only [nameChar, coreChar, midChar, innerChar, Bool.or_eq_true, Bool.and_eq_true,
    Bool.or_eq_false_iff, beq_iff_eq, beq_eq_false_iff_ne, ne_eq, decide_eq_true_eq]
  omega

theorem headBad_cons (c : Char) (l : List Char) :
    headBad (c :: l) = (c.toNat == 45 || c.toNat == 126 || c.toNat == 92 || c.toNat == 32) :=
  rfl

theorem any_not_claimAllowed_false_iff (l : List Char) :
    (l.any fun c => !claimAllowed c) = false ↔ (∀ x ∈ l, nameChar x = true) := by
  rw [List.any_eq_false]
  constructor
  · intro h x hx
    have h2 := h x hx
    rw [Bool.not_eq_true', Bool.not_eq_false] at h2
    exact (nameChar_iff_claimAllowed x).mpr h2
  · intro h x hx
    rw [Bool.not_eq_true', Bool.not_eq_false]
    exact (nameChar_iff_claimAllowed x).mp (h x hx)

theorem lastBad_false_iff (l : List Char) :
    lastBad l = false ↔ (∀ c, l.getLast? = some c → innerChar c = false) := by
  unfold lastBad
  cases hl : l.getLast? with
  | none => simp
  | some c =>
    constructor
    · intro h c2 hc2
      injection hc2 with hc2
      subst hc2
      exact h
    · intro h
      exact h c rfl

theorem lmaxClaim_iff (lmax : Option Nat) (l : List Char) :
    lmaxClaimExceeded lmax l = false ↔ (∀ m, lmax = some m → l.length ≤ m) := by
  cases lmax with
  | none => simp [lmaxClaimExceeded]
  | some m => simp [lmaxClaimExceeded]

theorem isvalidname_claim_true_iff (lmax : Option Nat) (l : List Char) :
    isvalidname_claim lmax l = true ↔
      (l.isEmpty = false ∧ (l.any fun c => !claimAllowed c) = false ∧
       headBad l = false ∧ lastBad l = false ∧ lmaxClaimExceeded lmax l = false) := by
  unfold isvalidname_claim
  cases h1 : l.isEmpty <;> cases h2 : l.any fun c => !claimAllowed c <;>
    cases h3 : headBad l <;> cases h4 : lastBad l <;>
    cases h5 : lmaxClaimExceeded lmax l <;> simp [h1, h2, h3, h4, h5]

theorem charsOk_spec (l : List Char) : ∀ nf : Bool,
    charsOk nf l = true ↔
      ((∀ c ∈ l, nameChar c = true) ∧
       (nf = false → ∀ c, l.head? = some c → coreChar c = true) ∧
       (∀ c, l.getLast? = some c → (coreChar c || midChar c) = true)) := by
  induction l with
  | nil => intro nf; simp [charsOk]
  | cons c rest ih =>
    intro nf
    rcases rest with _ | ⟨c2, rest2⟩
    · cases h1 : coreChar c <;> cases h2 : midChar c <;> cases nf <;>
        simp [charsOk, nameChar, h1, h2]
    · rw [charsOk]
      cases h1 : coreChar c <;> cases h2 : midChar c <;> cases h3 : innerChar c <;>
        cases nf <;> simp [h1, h2, h3, ih, nameChar]

theorem isvalidnameGo_spec (lmax : Option Nat) (l : List Char) : ∀ i : Nat,
    isvalidnameGo lmax i l = true ↔
      ((∀ m, lmax = some m → (l = [] ∨ i + l.length ≤ m)) ∧
       charsOk (decide (0 < i)) l = true) := by
  induction l with
  | nil =>
    intro i
    simp [isvalidnameGo, charsOk]
  | cons c rest ih =>
    intro i
    rw [isvalidnameGo]
    by_cases hx : lmaxExceeded lmax i = true
    · rw [if_pos hx]
      rcases lmax with _ | m
      · simp [lmaxExceeded] at hx
      · simp only [lmaxExceeded, decide_eq_true_eq] at hx
        constructor
        · intro h
          exact absurd h (by decide)
        · rintro ⟨hbnd, -⟩
          rcases hbnd m rfl with h | h
          · exact absurd h (by simp)
          · exfalso
            simp only [List.length_cons] at h
            omega
    · rw [if_neg hx]
      have hb : ∀ m, lmax = some m → i < m := by
        intro m hm
        subst hm
        simp only [lmaxExceeded, decide_eq_true_eq] at hx
        omega
      have hbnd_iff : (∀ m, lmax = some m → (rest = [] ∨ (i + 1) + rest.length ≤ m)) ↔
          (∀ m, lmax = some m → (c :: rest = [] ∨ i + (c :: rest).length ≤ m)) := by
        constructor
        · intro hh m hm
          right
          rcases hh m hm with h | h
          · subst h
            simp only [List.length_cons, List.length_nil]
            have := hb m hm
            omega
          · simp only [List.length_cons]
            omega
        · intro hh m hm
          rcases hh m hm with h | h
          · exact absurd h (by simp)
          · right
            simp only [List.length_cons] at h
            omega
      by_cases h1 : coreChar c = true
      · rw [if_pos h1, ih (i + 1)]
        have hck : charsOk (decide (0 < i)) (c :: rest) = charsOk true rest := by
          rw [charsOk, if_pos h1]
        rw [hck]
        simp only [show decide (0 < i + 1) = true from by simp]
        rw [hbnd_iff]
      · rw [if_neg h1]
        by_cases h2 : (decide (0 < i) && midChar c) = true
        · rw [if_pos h2, ih (i + 1)]
          have hck : charsOk (decide (0 < i)) (c :: rest) = charsOk true rest := by
            rw [charsOk, if_neg h1, if_pos h2]
          rw [hck]
          simp only [show decide (0 < i + 1) = true from by simp]
          rw [hbnd_iff]
        · rw [if_neg h2]
          by_cases h3 : ((decide (0 < i) && !rest.isEmpty) && innerChar c) = true
          · rw [if_pos h3, ih (i + 1)]
            have hck : charsOk (decide (0 < i)) (c :: rest) = charsOk true rest := by
              rw [charsOk, if_neg h1, if_neg h2, if_pos h3]
            rw [hck]
            simp only [show decide (0 < i + 1) = true from by simp]
            rw [hbnd_iff]
          · rw [if_neg h3]
            have hck : charsOk (decide (0 < i)) (c :: rest) = false := by
              rw [charsOk, if_neg h1, if_neg h2, if_neg h3]
            rw [hck]
            simp

/-! Claim C5. -/

/-- C5: isvalidname computes exactly the characterization the claim states: it
returns false precisely when the string is empty, or contains a character outside
the set consisting of `@`, A-Z, a-z, 0-9, `.`, `_`, `$`, `-`, `~`, backslash and
space, or starts with `-`, `~`, backslash or space, or ends with backslash or space,
or (when a login-name length bound is configured) exceeds that bound; otherwise it
returns true. -/
theorem C5_isvalidname_eq_claim (lmax : Option Nat) (name : List Char) :
    isvalidname lmax name = isvalidname_claim lmax name := by
  rcases name with _ | ⟨c0, rest0⟩
  · rfl
  · apply bool_eq_of_iff
    rw [show isvalidname lmax (c0 :: rest0) = isvalidnameGo lmax 0 (c0 :: rest0) from rfl,
        isvalidnameGo_spec lmax (c0 :: rest0) 0,
        show decide (0 < 0) = false from rfl,
        charsOk_spec (c0 :: rest0) false,
        isvalidname_claim_true_iff lmax (c0 :: rest0)]
    constructor
    · rintro ⟨hbound, hmem, hhead, hlast⟩
      have hc0 : coreChar c0 = true := hhead rfl c0 rfl
      refine ⟨rfl, ?_, ?_, ?_, ?_⟩
      · exact (any_not_claimAllowed_false_iff (c0 :: rest0)).mpr hmem
      · rw [headBad_cons]
        exact ((coreChar_iff_head_ok c0).mp hc0).2
      · rw [lastBad_false_iff]
        intro c hc
        exact ((core_or_mid_iff_last_ok c).mp (hlast c hc)).2
      · rw [lmaxClaim_iff]
        intro m hm
        rcases hbound m hm with h | h
        · exact absurd h (by simp)
        · omega
    · rintro ⟨-, hall, hhead, hlast, hbound⟩
      have hmem : ∀ x ∈ c0 :: rest0, nameChar x = true :=
        (any_not_claimAllowed_false_iff (c0 :: rest0)).mp hall
      refine ⟨?_, hmem, ?_, ?_⟩
      · intro m hm
        right
        rw [lmaxClaim_iff] at hbound
        have := hbound m hm
        omega
      · intro _ c hc
        injection hc with hc
        subst hc
        apply (coreChar_iff_head_ok c0).mpr
        refine ⟨hmem c0 (by simp), ?_⟩
        rw [headBad_cons] at hhead
        exact hhead
      · intro c hc
        apply (core_or_mid_iff_last_ok c).mpr
        refine ⟨hmem c (List.mem_of_mem_getLast? hc), ?_⟩
        rw [lastBad_false_iff] at hlast
        exact hlast c hc
